import Mathlib

/-!
# Verification of the Aporte Capital backend core (src/server.js)

Shallow embedding, in Lean 4, of the three subsystems of `src/server.js`
that the specification covers:

* the temporary download-link registry (`generateTempLink`,
  `validateTempLink`, `incrementDownload`, lines 24–87);
* the CNPJ registry-lookup resolver (`consultarCNPJ`,
  `normalizarDadosCNPJ`, lines 125–359);
* the heuristic score engine (`calcularScoreEstimado`,
  `gerarRecomendacao`, lines 361–561).

Modelling conventions:

* JavaScript `Date` instants are rational numbers of milliseconds since
  the epoch (`ℚ`); `new Date() > d` is `now > d` on `ℚ`.
* The in-memory `Map` keyed by link id is an association list
  `List (String × LinkRecord)`; `Map.get` / `Map.set` are `getLink` /
  `setLink` below.
* The random `linkId` produced by `crypto.randomBytes` is passed in as an
  explicit argument.
* JavaScript string truthiness is modelled by comparison with `""` (all
  the fields involved are strings, where `''` is the only falsy value).
* Network effects are an explicit environment `String → FetchOutcome`
  mapping each provider URL to what `fetch` produced there; the list of
  URLs actually contacted is returned alongside the result.
-/

/-- One record of the `tempLinks` map (server.js lines 38–45): the stored
files (kept as their storage paths), creation and expiry instants in ms,
the download counter, the permitted maximum and the active flag. -/
structure LinkRecord where
  files : List String
  createdAt : ℚ
  downloads : ℕ
  maxDownloads : ℕ
  expiresAt : ℚ
  active : Bool
deriving DecidableEq, Repr

/-- The `tempLinks` map: an association list keyed by link id. -/
abbrev LinkRegistry := List (String × LinkRecord)

/-- `tempLinks.get(linkId)`. -/
def getLink (linkId : String) : LinkRegistry → Option LinkRecord
  | [] => none
  | (k, v) :: rest => if k = linkId then some v else getLink linkId rest

/-- `tempLinks.set(linkId, record)`: replaces the entry in place when the
key is present, appends it otherwise. -/
def setLink (linkId : String) (v : LinkRecord) : LinkRegistry → LinkRegistry
  | [] => [(linkId, v)]
  | (k, w) :: rest =>
      if k = linkId then (linkId, v) :: rest else (k, w) :: setLink linkId v rest

/-- `generateTempLink(files, maxDownloads = 5, expirationHours = 48)`
(server.js lines 34–49).  The random `linkId` and the current instant
`now` are explicit arguments; the stored record starts with
`downloads = 0`, `active = true` and
`expiresAt = now + expirationHours·60·60·1000`. -/
def generateTempLink (linkId : String) (files : List String) (maxDownloads : ℕ)
    (expirationHours : ℚ) (now : ℚ) (reg : LinkRegistry) : LinkRegistry :=
  setLink linkId
    { files := files
      createdAt := now
      downloads := 0
      maxDownloads := maxDownloads
      expiresAt := now + expirationHours * 60 * 60 * 1000
      active := true } reg

/-- Result shape of `validateTempLink`: `{valid, reason}` on failure,
`{valid, link}` on success. -/
structure ValidationResult where
  valid : Bool
  reason : String := ""
  link : Option LinkRecord := none
deriving DecidableEq, Repr

/-- `validateTempLink(linkId)` (server.js lines 54–76), with the current
instant `now` explicit.  Returns the validation result together with the
registry after the call (the expired and limit-reached branches flip
`active` to `false` on the stored record). -/
def validateTempLink (linkId : String) (now : ℚ) (reg : LinkRegistry) :
    ValidationResult × LinkRegistry :=
  match getLink linkId reg with
  | none => ({ valid := false, reason := "Link não encontrado" }, reg)
  | some link =>
      if link.active = false then
        ({ valid := false, reason := "Link desativado" }, reg)
      else if now > link.expiresAt then
        ({ valid := false, reason := "Link expirado" },
          setLink linkId { link with active := false } reg)
      else if link.downloads ≥ link.maxDownloads then
        ({ valid := false, reason := "Limite de downloads atingido" },
          setLink linkId { link with active := false } reg)
      else
        ({ valid := true, link := some link }, reg)

/-- `incrementDownload(linkId)` (server.js lines 81–87): increments the
download counter of the matching record when one exists, does nothing
otherwise. -/
def incrementDownload (linkId : String) (reg : LinkRegistry) : LinkRegistry :=
  match getLink linkId reg with
  | none => reg
  | some link => setLink linkId { link with downloads := link.downloads + 1 } reg

/-- One operation on the link registry, for reasoning about operation
sequences: issuance, validation (at some instant) and consumption. -/
inductive LinkOp where
  | issue (linkId : String) (files : List String) (maxDownloads : ℕ)
      (expirationHours : ℚ) (now : ℚ)
  | validate (linkId : String) (now : ℚ)
  | consume (linkId : String)

/-- The registry after one operation. -/
def applyLinkOp (reg : LinkRegistry) : LinkOp → LinkRegistry
  | .issue linkId files maxD hours now => generateTempLink linkId files maxD hours now reg
  | .validate linkId now => (validateTempLink linkId now reg).2
  | .consume linkId => incrementDownload linkId reg

/-- The registry after a sequence of operations, starting from `reg`. -/
def runLinkOps (ops : List LinkOp) (reg : LinkRegistry) : LinkRegistry :=
  ops.foldl applyLinkOp reg

/-- The claimed registry invariant: every stored record satisfies
`downloads ≤ maxDownloads`. -/
def RegistryInv (reg : LinkRegistry) : Prop :=
  ∀ linkId l, getLink linkId reg = some l → l.downloads ≤ l.maxDownloads

theorem getLink_setLink_self (linkId : String) (v : LinkRecord) (reg : LinkRegistry) :
    getLink linkId (setLink linkId v reg) = some v := by
  induction reg with
  | nil => simp [getLink, setLink]
  | cons hd tl ih =>
      obtain ⟨k, w⟩ := hd
      by_cases h : k = linkId <;> simp [getLink, setLink, h, ih]

theorem getLink_setLink_other (linkId otherId : String) (v : LinkRecord)
    (reg : LinkRegistry) (h : otherId ≠ linkId) :
    getLink otherId (setLink linkId v reg) = getLink otherId reg := by
  induction reg with
  | nil => simp [getLink, setLink, Ne.symm h]
  | cons hd tl ih =>
      obtain ⟨k, w⟩ := hd
      by_cases hk : k = linkId
      · subst hk
        simp [getLink, setLink, Ne.symm h]
      · simp only [setLink, if_neg hk, getLink]
        by_cases hk2 : k = otherId <;> simp [hk2, ih]

theorem registryInv_setLink {reg : LinkRegistry} (linkId : String) {v : LinkRecord}
    (h : RegistryInv reg) (hv : v.downloads ≤ v.maxDownloads) :
    RegistryInv (setLink linkId v reg) := by
  intro otherId l hl
  by_cases he : otherId = linkId
  · subst he
    rw [getLink_setLink_self] at hl
    cases hl
    exact hv
  · rw [getLink_setLink_other _ _ _ _ he] at hl
    exact h otherId l hl

/-- C1, counterexample.  The claim asserts that `downloads ≤ maxDownloads`
is preserved by *every* sequence of issue / validate / consume operations,
but `incrementDownload` (server.js lines 81–87) increments unconditionally
on a present record: issuing a link with `maxDownloads = 1` and consuming
twice yields a stored record with `downloads = 2 > 1`. -/
theorem c1_counterexample :
    ¬ RegistryInv
        (runLinkOps [.issue "A" [] 1 48 0, .consume "A", .consume "A"] []) := by
  intro h
  have hmap :
      (getLink "A" (runLinkOps [.issue "A" [] 1 48 0, .consume "A", .consume "A"] [])).map
        (fun l => (l.downloads, l.maxDownloads)) = some (2, 1) := by rfl
  cases hg : getLink "A" (runLinkOps [.issue "A" [] 1 48 0, .consume "A", .consume "A"] []) with
  | none => rw [hg] at hmap; exact Option.noConfusion hmap
  | some l =>
      rw [hg] at hmap
      have hb := h "A" l hg
      simp only [Option.map, Option.some.injEq, Prod.mk.injEq] at hmap
      obtain ⟨h1, h2⟩ := hmap
      omega

/-- C1, amended.  `downloads ≤ maxDownloads` is established by `issue`
(which stores `downloads = 0`) and preserved by `issue` and by `validate`;
`consume` preserves it exactly on records whose counter is still strictly
below the maximum — which is guaranteed after a `validate` that returned
`valid = true` — and has no effect on an absent record, but an unguarded
`consume` on a saturated record breaks the inequality. -/
theorem c1_inv_preservation (reg : LinkRegistry) (h : RegistryInv reg) :
    (∀ linkId files maxD hours now,
      RegistryInv (generateTempLink linkId files maxD hours now reg)) ∧
    (∀ linkId now, RegistryInv (validateTempLink linkId now reg).2) ∧
    (∀ linkId, (∀ l, getLink linkId reg = some l → l.downloads < l.maxDownloads) →
      RegistryInv (incrementDownload linkId reg)) ∧
    (∀ linkId, getLink linkId reg = none → incrementDownload linkId reg = reg) ∧
    (∀ linkId now l, (validateTempLink linkId now reg).1.valid = true →
      getLink linkId reg = some l → l.downloads < l.maxDownloads) := by
  refine ⟨?_, ?_, ?_, ?_, ?_⟩
  · intro linkId files maxD hours now
    exact registryInv_setLink linkId h (Nat.zero_le _)
  · intro linkId now
    unfold validateTempLink
    cases hg : getLink linkId reg with
    | none => exact h
    | some link =>
        have hb := h linkId link hg
        by_cases ha : link.active = false
        · simpa [ha] using h
        · simp only [ha, if_false]
          by_cases hexp : now > link.expiresAt
          · simpa [hexp] using
              registryInv_setLink (v := { link with active := false }) linkId h hb
          · by_cases hdl : link.downloads ≥ link.maxDownloads
            · simpa [hexp, hdl] using
                registryInv_setLink (v := { link with active := false }) linkId h hb
            · simpa [hexp, hdl] using h
  · intro linkId hguard
    unfold incrementDownload
    cases hg : getLink linkId reg with
    | none => exact h
    | some link => exact registryInv_setLink linkId h (hguard link hg)
  · intro linkId hg
    unfold incrementDownload
    rw [hg]
  · intro linkId now l hvalid hg
    unfold validateTempLink at hvalid
    rw [hg] at hvalid
    by_cases ha : l.active = false
    · simp [ha] at hvalid
    · by_cases hexp : now > l.expiresAt
      · simp [ha, hexp] at hvalid
      · by_cases hdl : l.downloads ≥ l.maxDownloads
        · simp [ha, hexp, hdl] at hvalid
        · exact Nat.lt_of_not_le hdl

/-- C1, witness: applying the amended preservation theorem to the empty
registry shows a freshly issued link satisfies the invariant. -/
theorem c1_inv_preservation_witness :
    RegistryInv (generateTempLink "A" [] 5 48 0 []) :=
  (c1_inv_preservation []
    (by intro linkId l hl; simp [getLink] at hl)).1 "A" [] 5 48 0

/-- C6: `validateTempLink` reports invalidity with the reasons in the
claimed priority order — record absent, deactivated, expired (flipping
`active` off in the registry), download limit reached (also flipping
`active` off) — and returns `valid = true` with the record exactly when
none of these applies; the function is total, so no case throws. -/
theorem c6_validate_priority (reg : LinkRegistry) (linkId : String) (now : ℚ) :
    (getLink linkId reg = none →
      validateTempLink linkId now reg =
        ({ valid := false, reason := "Link não encontrado" }, reg)) ∧
    (∀ l, getLink linkId reg = some l → l.active = false →
      validateTempLink linkId now reg =
        ({ valid := false, reason := "Link desativado" }, reg)) ∧
    (∀ l, getLink linkId reg = some l → l.active = true → now > l.expiresAt →
      validateTempLink linkId now reg =
        ({ valid := false, reason := "Link expirado" },
          setLink linkId { l with active := false } reg)) ∧
    (∀ l, getLink linkId reg = some l → l.active = true → ¬ now > l.expiresAt →
      l.downloads ≥ l.maxDownloads →
      validateTempLink linkId now reg =
        ({ valid := false, reason := "Limite de downloads atingido" },
          setLink linkId { l with active := false } reg)) ∧
    (∀ l, getLink linkId reg = some l → l.active = true → ¬ now > l.expiresAt →
      l.downloads < l.maxDownloads →
      validateTempLink linkId now reg = ({ valid := true, link := some l }, reg)) := by
  refine ⟨?_, ?_, ?_, ?_, ?_⟩
  · intro hg
    simp [validateTempLink, hg]
  · intro l hg ha
    simp [validateTempLink, hg, ha]
  · intro l hg ha hexp
    simp [validateTempLink, hg, ha, hexp]
  · intro l hg ha hexp hdl
    simp [validateTempLink, hg, ha, hexp, hdl]
  · intro l hg ha hexp hdl
    simp [validateTempLink, hg, ha, hexp, Nat.not_le.mpr hdl]

/-- JavaScript `a || b` on strings: the empty string is the only falsy
string, so `a || b` is `b` when `a` is empty and `a` otherwise. -/
def jsOr (a b : String) : String := if a = "" then b else a

/-- A `{codigo, descricao}` CNAE object of a BrasilAPI response. -/
structure CnaeBrasilAPI where
  codigo : String := ""
  descricao : String := ""
deriving DecidableEq, Repr

/-- A `{code, text}` activity object of a ReceitaWS response. -/
structure AtividadeReceitaWS where
  code : String := ""
  text : String := ""
deriving DecidableEq, Repr

/-- A partner (`qsa`) entry; the union of the field names the two handled
providers use (`nome_socio`/`qualificacao_socio`/`data_entrada_sociedade`
for BrasilAPI, `nome`/`qual` for ReceitaWS), each defaulting to the empty
string when the provider does not send it. -/
structure QsaEntry where
  nome_socio : String := ""
  qualificacao_socio : String := ""
  data_entrada_sociedade : String := ""
  nome : String := ""
  qual : String := ""
deriving DecidableEq, Repr

/-- A provider response body: the union of the fields
`normalizarDadosCNPJ` (server.js lines 220–359) reads from the two
provider shapes it handles.  String fields default to `""` (absent and
empty are indistinguishable under JavaScript truthiness); array-valued
fields are `Option` so that an absent array (the `data.x &&
Array.isArray(data.x)` guards) is `none`.  `company_name` stands for
`data.company?.name` and `aliasName` for `data.alias`.  `status` is both
the error indicator checked by the lookup loop (`data.status ===
'ERROR'`, line 184) and the BrasilAPI fallback for the registration
status (line 256). -/
structure RespData where
  status : String := ""
  cnpj : String := ""
  razao_social : String := ""
  company_name : String := ""
  nome_fantasia : String := ""
  aliasName : String := ""
  descricao_situacao_cadastral : String := ""
  data_situacao_cadastral : String := ""
  descricao_motivo_situacao_cadastral : String := ""
  data_inicio_atividade : String := ""
  founded : String := ""
  descricao_natureza_juridica : String := ""
  descricao_porte : String := ""
  size : String := ""
  capital_social : String := ""
  logradouro : String := ""
  numero : String := ""
  complemento : String := ""
  bairro : String := ""
  municipio : String := ""
  uf : String := ""
  cep : String := ""
  ddd_telefone_1 : String := ""
  email : String := ""
  cnae_fiscal_principal : Option CnaeBrasilAPI := none
  cnaes_secundarios : Option (List CnaeBrasilAPI) := none
  qsa : Option (List QsaEntry) := none
  nome : String := ""
  fantasia : String := ""
  situacao : String := ""
  abertura : String := ""
  natureza_juridica : String := ""
  porte : String := ""
  telefone : String := ""
  atividade_principal : Option (List AtividadeReceitaWS) := none
  atividades_secundarias : Option (List AtividadeReceitaWS) := none
deriving DecidableEq, Repr

/-- The normalized address sub-object. -/
structure Endereco where
  logradouro : String := ""
  numero : String := ""
  complemento : String := ""
  bairro : String := ""
  municipio : String := ""
  uf : String := ""
  cep : String := ""
deriving DecidableEq, Repr

/-- A normalized partner record. -/
structure Socio where
  nome : String := ""
  qualificacao : String := ""
  dataEntrada : String := ""
deriving DecidableEq, Repr

/-- The canonical normalized company profile produced by
`normalizarDadosCNPJ` (server.js lines 222–250), together with the
`success` flag and the `error` message of its failure shape. -/
structure DadosCNPJ where
  success : Bool := true
  error : String := ""
  cnpj : String := ""
  razaoSocial : String := ""
  nomeFantasia : String := ""
  situacao : String := ""
  dataSituacao : String := ""
  motivoSituacao : String := ""
  dataAbertura : String := ""
  naturezaJuridica : String := ""
  porte : String := ""
  regimeTributario : String := ""
  capitalSocial : String := ""
  endereco : Endereco := {}
  telefone : String := ""
  email : String := ""
  atividadePrincipal : String := ""
  atividadesSecundarias : List String := []
  socios : List Socio := []
  dataUltimaAtualizacao : String := ""
deriving DecidableEq, Repr

/-- `normalizarDadosCNPJ(data, apiName)` (server.js lines 220–359):
provider-specific field mapping for `'BrasilAPI'` and `'ReceitaWS'`; any
other provider name leaves the pre-initialised blank profile untouched.
A profile whose legal name ends up empty is replaced by the failure
value (lines 343–348). -/
def normalizarDadosCNPJ (data : RespData) (apiName : String) : DadosCNPJ :=
  let normalized : DadosCNPJ := { success := true }
  let normalized : DadosCNPJ :=
    if apiName = "BrasilAPI" then
      { normalized with
        cnpj := data.cnpj
        razaoSocial := jsOr data.razao_social data.company_name
        nomeFantasia := jsOr data.nome_fantasia data.aliasName
        situacao := jsOr data.descricao_situacao_cadastral data.status
        dataSituacao := data.data_situacao_cadastral
        motivoSituacao := data.descricao_motivo_situacao_cadastral
        dataAbertura := jsOr data.data_inicio_atividade data.founded
        naturezaJuridica := data.descricao_natureza_juridica
        porte := jsOr data.descricao_porte data.size
        capitalSocial := data.capital_social
        endereco := { logradouro := data.logradouro, numero := data.numero,
                      complemento := data.complemento, bairro := data.bairro,
                      municipio := data.municipio, uf := data.uf, cep := data.cep }
        telefone := data.ddd_telefone_1
        email := data.email
        atividadePrincipal :=
          match data.cnae_fiscal_principal with
          | some c => c.codigo ++ " - " ++ c.descricao
          | none => ""
        atividadesSecundarias :=
          match data.cnaes_secundarios with
          | some l => l.map fun c => c.codigo ++ " - " ++ c.descricao
          | none => []
        socios :=
          match data.qsa with
          | some l => l.map fun s =>
              { nome := s.nome_socio, qualificacao := s.qualificacao_socio,
                dataEntrada := s.data_entrada_sociedade }
          | none => [] }
    else if apiName = "ReceitaWS" then
      { normalized with
        cnpj := data.cnpj
        razaoSocial := data.nome
        nomeFantasia := data.fantasia
        situacao := data.situacao
        dataAbertura := data.abertura
        naturezaJuridica := data.natureza_juridica
        porte := data.porte
        capitalSocial := data.capital_social
        endereco := { logradouro := data.logradouro, numero := data.numero,
                      complemento := data.complemento, bairro := data.bairro,
                      municipio := data.municipio, uf := data.uf, cep := data.cep }
        telefone := data.telefone
        email := data.email
        atividadePrincipal :=
          match data.atividade_principal with
          | some (a :: _) => a.code ++ " - " ++ a.text
          | _ => ""
        atividadesSecundarias :=
          match data.atividades_secundarias with
          | some l => l.map fun a => a.code ++ " - " ++ a.text
          | none => []
        socios :=
          match data.qsa with
          | some l => l.map fun s =>
              { nome := s.nome, qualificacao := s.qual, dataEntrada := "" }
          | none => [] }
    else normalized
  if normalized.razaoSocial = "" then
    { success := false, error := "Dados incompletos retornados pela API" }
  else normalized

/-- One entry of the fixed provider list (server.js lines 145–161). -/
structure ApiDef where
  name : String
  url : String
  official : Bool
deriving DecidableEq, Repr

/-- The ordered provider list for a cleaned identifier. -/
def cnpjApis (cnpjLimpo : String) : List ApiDef :=
  [ { name := "BrasilAPI",
      url := "https://brasilapi.com.br/api/cnpj/v1/" ++ cnpjLimpo, official := true },
    { name := "ReceitaWS",
      url := "https://www.receitaws.com.br/v1/cnpj/" ++ cnpjLimpo, official := false },
    { name := "CNPJ.ws",
      url := "https://cnpj.ws/cnpj/" ++ cnpjLimpo, official := false } ]

/-- What one `fetch` of a provider URL produced: a thrown transport /
parse error, a non-success HTTP status, or a parsed JSON body (`none`
models a null body). -/
inductive FetchOutcome where
  | fetchError
  | httpError (status : ℕ)
  | ok (body : Option RespData)

/-- The value `consultarCNPJ` returns: the (possibly failed) profile,
the annotation fields spread over it (`source`, `official`,
`consultedAt`).  The validation-failure return carries no timestamp,
hence the `Option`. -/
structure ConsultaResult where
  dados : DadosCNPJ
  source : String := ""
  official : Bool := false
  consultedAt : Option String := none
deriving DecidableEq, Repr

/-- `cnpj.replace(/[^\d]/g, '')` — the digits of the input, in order. -/
def limparCNPJ (cnpj : String) : String := String.mk (cnpj.data.filter Char.isDigit)

/-- The provider loop of `consultarCNPJ` (server.js lines 163–215):
tries each provider in order, skipping it on transport error, bad
status, null/`ERROR` body or failed normalization, and returns the first
successful profile annotated with the provider; the aggregate failure
when the list is exhausted.  `tried` accumulates the URLs contacted. -/
def consultarLoop (env : String → FetchOutcome) (now : String) :
    List ApiDef → List String → ConsultaResult × List String
  | [], tried =>
      ({ dados :=
           { success := false
             error := "Não foi possível consultar o CNPJ no momento. Todas as APIs estão indisponíveis." }
         source := "todas_apis_falharam", consultedAt := some now }, tried)
  | api :: rest, tried =>
      match env api.url with
      | .fetchError => consultarLoop env now rest (tried ++ [api.url])
      | .httpError _ => consultarLoop env now rest (tried ++ [api.url])
      | .ok none => consultarLoop env now rest (tried ++ [api.url])
      | .ok (some data) =>
          if data.status = "ERROR" then consultarLoop env now rest (tried ++ [api.url])
          else
            let dadosNormalizados := normalizarDadosCNPJ data api.name
            if dadosNormalizados.success then
              ({ dados := dadosNormalizados, source := api.name,
                 official := api.official, consultedAt := some now },
               tried ++ [api.url])
            else consultarLoop env now rest (tried ++ [api.url])

/-- `consultarCNPJ(cnpj)` (server.js lines 130–215): cleans the input,
fails with the validation error when the cleaned form is not 14 digits
long (contacting nobody), and otherwise runs the provider loop.  The
second component lists the URLs actually fetched. -/
def consultarCNPJ (cnpj : String) (env : String → FetchOutcome) (now : String) :
    ConsultaResult × List String :=
  let cnpjLimpo := limparCNPJ cnpj
  if cnpjLimpo.length ≠ 14 then
    ({ dados := { success := false, error := "CNPJ deve ter 14 dígitos" },
       source := "validacao" }, [])
  else consultarLoop env now (cnpjApis cnpjLimpo) []

/-- What one provider attempt yields: `some` of the normalized profile
when the fetch returned a non-`ERROR` body that normalizes successfully,
`none` on any of the absorbed failures (transport error, bad status,
null/`ERROR` body, normalization without a legal name). -/
def attemptResult (env : String → FetchOutcome) (api : ApiDef) : Option DadosCNPJ :=
  match env api.url with
  | .ok (some data) =>
      if data.status = "ERROR" then none
      else if (normalizarDadosCNPJ data api.name).success then
        some (normalizarDadosCNPJ data api.name)
      else none
  | _ => none

/-- The first provider of the list whose attempt succeeds, with its
normalized profile. -/
def firstAttempt (env : String → FetchOutcome) : List ApiDef → Option (ApiDef × DadosCNPJ)
  | [] => none
  | api :: rest =>
      match attemptResult env api with
      | some n => some (api, n)
      | none => firstAttempt env rest

theorem firstAttempt_mem {env : String → FetchOutcome} :
    ∀ {l : List ApiDef} {api : ApiDef} {n : DadosCNPJ},
      firstAttempt env l = some (api, n) → api ∈ l ∧ attemptResult env api = some n := by
  intro l
  induction l with
  | nil => intro api n hf; exact absurd hf (by simp [firstAttempt])
  | cons hd rest ih =>
      intro api n hf
      unfold firstAttempt at hf
      cases ha : attemptResult env hd with
      | some m =>
          rw [ha] at hf
          cases hf
          exact ⟨List.mem_cons_self hd rest, ha⟩
      | none =>
          rw [ha] at hf
          obtain ⟨hmem, hatt⟩ := ih hf
          exact ⟨List.mem_cons_of_mem hd hmem, hatt⟩

theorem consultarLoop_fst (env : String → FetchOutcome) (now : String) :
    ∀ (l : List ApiDef) (tried : List String),
      (consultarLoop env now l tried).1 =
        match firstAttempt env l with
        | some (api, n) =>
            { dados := n, source := api.name, official := api.official,
              consultedAt := some now }
        | none =>
            { dados :=
                { success := false
                  error := "Não foi possível consultar o CNPJ no momento. Todas as APIs estão indisponíveis." }
              source := "todas_apis_falharam", consultedAt := some now } := by
  intro l
  induction l with
  | nil => intro tried; rfl
  | cons api rest ih =>
      intro tried
      cases henv : env api.url with
      | fetchError => simp [consultarLoop, henv, firstAttempt, attemptResult, ih]
      | httpError s => simp [consultarLoop, henv, firstAttempt, attemptResult, ih]
      | ok body =>
          cases body with
          | none => simp [consultarLoop, henv, firstAttempt, attemptResult, ih]
          | some data =>
              by_cases hst : data.status = "ERROR"
              · simp [consultarLoop, henv, hst, firstAttempt, attemptResult, ih]
              · by_cases hsucc : (normalizarDadosCNPJ data api.name).success = true
                · simp [consultarLoop, henv, hst, hsucc, firstAttempt, attemptResult]
                · simp [consultarLoop, henv, hst, hsucc, firstAttempt, attemptResult, ih]

/-- C4: an identifier whose digits-only cleaned form is not 14 characters
long makes `consultarCNPJ` fail with `success = false` and
`source = "validacao"` (the spec's `"validation"`), contacting no URL. -/
theorem c4_validation (cnpj : String) (env : String → FetchOutcome) (now : String)
    (h : (limparCNPJ cnpj).length ≠ 14) :
    (consultarCNPJ cnpj env now).1.dados.success = false ∧
    (consultarCNPJ cnpj env now).1.source = "validacao" ∧
    (consultarCNPJ cnpj env now).2 = [] := by
  refine ⟨?_, ?_, ?_⟩ <;> simp [consultarCNPJ, h]

/-- An environment in which every fetch throws. -/
def envAllFail : String → FetchOutcome := fun _ => .fetchError

/-- C4, witness: a 3-digit input is rejected without any fetch. -/
theorem c4_validation_witness :
    (consultarCNPJ "123" envAllFail "T").1.dados.success = false ∧
    (consultarCNPJ "123" envAllFail "T").1.source = "validacao" ∧
    (consultarCNPJ "123" envAllFail "T").2 = [] :=
  c4_validation "123" envAllFail "T" (by decide)

/-- C5 as a proposition about a given input and environment: the result
of `consultarCNPJ` is the first successfully normalized profile of the
ordered provider list, annotated with the provider's name, official flag
and the timestamp — and the aggregate failure with
`source = "todas_apis_falharam"` (the spec's `"all_providers_failed"`)
and the timestamp populated when every provider fails. -/
def C5Statement (cnpj : String) (env : String → FetchOutcome) (now : String) : Prop :=
  match firstAttempt env (cnpjApis (limparCNPJ cnpj)) with
  | some (api, n) =>
      (consultarCNPJ cnpj env now).1 =
        { dados := n, source := api.name, official := api.official,
          consultedAt := some now }
  | none =>
      (consultarCNPJ cnpj env now).1.dados.success = false ∧
      (consultarCNPJ cnpj env now).1.source = "todas_apis_falharam" ∧
      (consultarCNPJ cnpj env now).1.consultedAt = some now

/-- C5: for every 14-digit identifier and every behaviour of the three
providers, the sequential fallback loop returns the first successful
normalization annotated with provider name, official flag and timestamp,
and the aggregate failure when all providers are exhausted. -/
theorem c5_resolver (cnpj : String) (env : String → FetchOutcome) (now : String)
    (h : (limparCNPJ cnpj).length = 14) : C5Statement cnpj env now := by
  unfold C5Statement
  have hcc : (consultarCNPJ cnpj env now).1 =
      (consultarLoop env now (cnpjApis (limparCNPJ cnpj)) []).1 := by
    simp [consultarCNPJ, h]
  cases hf : firstAttempt env (cnpjApis (limparCNPJ cnpj)) with
  | some p =>
      obtain ⟨api, n⟩ := p
      rw [hcc, consultarLoop_fst env now _ [], hf]
  | none =>
      rw [hcc, consultarLoop_fst env now _ [], hf]
      exact ⟨rfl, rfl, rfl⟩

/-- An environment in which BrasilAPI is down and ReceitaWS answers with
a usable body. -/
def envReceitaOk : String → FetchOutcome := fun url =>
  if url = "https://www.receitaws.com.br/v1/cnpj/11222333000181" then
    .ok (some { nome := "ACME LTDA", situacao := "ATIVA" })
  else .fetchError

/-- C5, witness: the formatted identifier `"11.222.333/0001-81"` against
`envReceitaOk`. -/
theorem c5_resolver_witness : C5Statement "11.222.333/0001-81" envReceitaOk "T" :=
  c5_resolver "11.222.333/0001-81" envReceitaOk "T" (by decide)

theorem normalizar_cnpjws (data : RespData) :
    (normalizarDadosCNPJ data "CNPJ.ws").success = false := rfl

theorem attemptResult_eq_none {env : String → FetchOutcome} {api : ApiDef}
    (h : ∀ data, (normalizarDadosCNPJ data api.name).success = false) :
    attemptResult env api = none := by
  unfold attemptResult
  cases env api.url with
  | fetchError => rfl
  | httpError s => rfl
  | ok body =>
      cases body with
      | none => rfl
      | some data =>
          by_cases hst : data.status = "ERROR"
          · simp [hst]
          · simp [hst, h data]

/-- C9: `normalizarDadosCNPJ` maps fields only for `'BrasilAPI'` and
`'ReceitaWS'`; a body attributed to `'CNPJ.ws'` keeps the empty legal
name and always normalizes to a failure, so no successful lookup result
can carry `source = "CNPJ.ws"` — the third fallback entry is unreachable
as a success source. -/
theorem c9_cnpjws_unreachable :
    (∀ data : RespData, (normalizarDadosCNPJ data "CNPJ.ws").success = false) ∧
    (∀ (cnpj : String) (env : String → FetchOutcome) (now : String),
      (consultarCNPJ cnpj env now).1.dados.success = true →
      (consultarCNPJ cnpj env now).1.source ≠ "CNPJ.ws") := by
  refine ⟨normalizar_cnpjws, ?_⟩
  intro cnpj env now hsucc
  by_cases h14 : (limparCNPJ cnpj).length = 14
  · have hcc : (consultarCNPJ cnpj env now).1 =
        (consultarLoop env now (cnpjApis (limparCNPJ cnpj)) []).1 := by
      simp [consultarCNPJ, h14]
    rw [hcc, consultarLoop_fst env now _ []] at hsucc ⊢
    cases hf : firstAttempt env (cnpjApis (limparCNPJ cnpj)) with
    | none =>
        rw [hf] at hsucc
        exact Bool.noConfusion hsucc
    | some p =>
        obtain ⟨api, n⟩ := p
        obtain ⟨hmem, hatt⟩ := firstAttempt_mem hf
        show api.name ≠ "CNPJ.ws"
        simp only [cnpjApis, List.mem_cons, List.mem_singleton,
          List.not_mem_nil, or_false] at hmem
        rcases hmem with hm | hm | hm
        · subst hm
          show ("BrasilAPI" : String) ≠ "CNPJ.ws"
          decide
        · subst hm
          show ("ReceitaWS" : String) ≠ "CNPJ.ws"
          decide
        · subst hm
          rw [attemptResult_eq_none (fun data => normalizar_cnpjws data)] at hatt
          exact Option.noConfusion hatt
  · have hfail : (consultarCNPJ cnpj env now).1.dados.success = false := by
      simp [consultarCNPJ, h14]
    rw [hfail] at hsucc
    exact Bool.noConfusion hsucc

/-- `String.prototype.toLowerCase` restricted to what the score engine
compares (ASCII keywords): lower-cases character by character. -/
def toLowerCase (s : String) : String := String.mk (s.data.map Char.toLower)

/-- `pat` is a prefix of `l`. -/
def listPrefixOf : List Char → List Char → Bool
  | [], _ => true
  | _ :: _, [] => false
  | a :: as, b :: bs => a == b && listPrefixOf as bs

/-- `pat` occurs contiguously somewhere in `l`. -/
def listInfixOf (pat : List Char) : List Char → Bool
  | [] => pat.isEmpty
  | c :: rest => listPrefixOf pat (c :: rest) || listInfixOf pat rest

/-- `s.includes(pat)`: `pat` occurs contiguously in `s`. -/
def containsStr (s pat : String) : Bool := listInfixOf pat.data s.data

/-- `capitalSocial.toString().replace(/[^\d,]/g, '')`: keep only digits
and commas. -/
def limparCapital (s : String) : List Char :=
  s.data.filter fun c => c.isDigit || c = ','

/-- `.replace(',', '.')` with a string pattern: only the first comma is
replaced. -/
def trocaPrimeiraVirgula : List Char → List Char
  | [] => []
  | c :: cs => if c = ',' then '.' :: cs else c :: trocaPrimeiraVirgula cs

/-- The numeric value of a digit string. -/
def digitosParaNat (l : List Char) : ℕ :=
  l.foldl (fun n c => 10 * n + (c.toNat - 48)) 0

/-- `parseFloat` on a string made of digits, at most one dot and commas
(all that survives the cleaning): the longest `digits [. digits]` prefix
as an exact rational, `none` when no digit is consumed (JavaScript's
`NaN`). -/
def parseFloatQ (l : List Char) : Option ℚ :=
  let ip := l.takeWhile Char.isDigit
  let resto := l.dropWhile Char.isDigit
  let fp :=
    match resto with
    | '.' :: r => r.takeWhile Char.isDigit
    | _ => []
  if ip = [] ∧ fp = [] then none
  else some ((digitosParaNat ip : ℚ) + (digitosParaNat fp : ℚ) / (10 : ℚ) ^ fp.length)

/-- The capital parsing of server.js line 434:
`parseFloat(capitalSocial.toString().replace(/[^\d,]/g, '').replace(',', '.'))`,
with `NaN` as `none` and the numeric value kept exact in `ℚ`. -/
def parseCapital (s : String) : Option ℚ :=
  parseFloatQ (trocaPrimeiraVirgula (limparCapital s))

/-- The low-risk activity keywords (server.js lines 462–465). -/
def atividadesBaixoRisco : List String :=
  ["consultoria", "tecnologia", "software", "educação", "saúde",
   "engenharia", "arquitetura", "advocacia", "contabilidade"]

/-- The medium-risk activity keywords (server.js lines 468–471). -/
def atividadesMedioRisco : List String :=
  ["comércio", "varejo", "atacado", "indústria", "construção",
   "transporte", "logística", "alimentação"]

/-- The `detalhes` breakdown map of the score result: the five
sub-scores. -/
structure ScoreDetalhes where
  situacao : ℕ
  tempo_atividade : ℕ
  capital_social : ℕ
  atividade_principal : ℕ
  endereco : ℕ
deriving DecidableEq, Repr

/-- The sum of the five breakdown values. -/
def detalhesSum (x : ScoreDetalhes) : ℕ :=
  x.situacao + x.tempo_atividade + x.capital_social + x.atividade_principal + x.endereco

/-- The score result (server.js lines 369–380 and 521–529).  The
unavailable-data return carries no `cor`, `recomendacao` or
`calculadoEm` key, hence the `Option` fields. -/
structure ScoreResult where
  score : ℕ
  classificacao : String
  cor : Option String
  fatores : List String
  detalhes : ScoreDetalhes
  recomendacao : Option String
  calculadoEm : Option String
deriving DecidableEq, Repr

/-- The accumulator the score computation threads through its five
factor blocks: the running total, the factor messages pushed so far and
the breakdown assigned so far. -/
structure ScoreState where
  pontuacao : ℕ
  fatores : List String
  detalhes : ScoreDetalhes
deriving DecidableEq, Repr

/-- The result for null or unsuccessful profile data (server.js lines
368–381): score 0, classification `'Indisponível'`, one factor message,
all-zero breakdown and none of `cor`, `recomendacao`, `calculadoEm`. -/
def scoreIndisponivel : ScoreResult :=
  { score := 0, classificacao := "Indisponível", cor := none,
    fatores := ["Dados do CNPJ não disponíveis"],
    detalhes := ⟨0, 0, 0, 0, 0⟩, recomendacao := none, calculadoEm := none }

/-- Factor 1, registration status (server.js lines 393–407): 30 points
when the lower-cased status contains `'ativa'`, 10 when it contains
`'suspensa'`, 0 otherwise; skipped entirely on an empty status. -/
def stepSituacao (d : DadosCNPJ) (s : ScoreState) : ScoreState :=
  if d.situacao ≠ "" then
    if containsStr (toLowerCase d.situacao) "ativa" then
      { s with pontuacao := s.pontuacao + 30
               detalhes := { s.detalhes with situacao := 30 }
               fatores := s.fatores ++ ["✅ Situação cadastral ativa"] }
    else if containsStr (toLowerCase d.situacao) "suspensa" then
      { s with pontuacao := s.pontuacao + 10
               detalhes := { s.detalhes with situacao := 10 }
               fatores := s.fatores ++ ["⚠️ Situação cadastral suspensa"] }
    else
      { s with fatores := s.fatores ++ ["❌ Situação cadastral irregular"] }
  else s

/-- Factor 2, time in activity (server.js lines 409–430).  `hoje` is
`Date.now()` in ms and `parseDate` the `new Date(string)` parse, `none`
for an invalid date (`NaN`, under which every comparison is false).
Years in activity are the ms difference over `1000·60·60·24·365`:
25 points from 5 years, 15 from 2, 8 from 1, none below. -/
def stepTempoAtividade (d : DadosCNPJ) (hoje : ℚ) (parseDate : String → Option ℚ)
    (s : ScoreState) : ScoreState :=
  if d.dataAbertura ≠ "" then
    match parseDate d.dataAbertura with
    | none => { s with fatores := s.fatores ++ ["❌ Empresa muito recente (menos de 1 ano)"] }
    | some dataAbertura =>
        let anosAtividade : ℚ := (hoje - dataAbertura) / (1000 * 60 * 60 * 24 * 365)
        if anosAtividade ≥ 5 then
          { s with pontuacao := s.pontuacao + 25
                   detalhes := { s.detalhes with tempo_atividade := 25 }
                   fatores := s.fatores ++
                     ["✅ Empresa com " ++ toString ⌊anosAtividade⌋ ++ " anos de atividade"] }
        else if anosAtividade ≥ 2 then
          { s with pontuacao := s.pontuacao + 15
                   detalhes := { s.detalhes with tempo_atividade := 15 }
                   fatores := s.fatores ++
                     ["⚠️ Empresa com " ++ toString ⌊anosAtividade⌋ ++ " anos de atividade"] }
        else if anosAtividade ≥ 1 then
          { s with pontuacao := s.pontuacao + 8
                   detalhes := { s.detalhes with tempo_atividade := 8 }
                   fatores := s.fatores ++
                     ["⚠️ Empresa nova (" ++ toString ⌊anosAtividade⌋ ++ " ano)"] }
        else
          { s with fatores := s.fatores ++ ["❌ Empresa muito recente (menos de 1 ano)"] }
  else s

/-- Factor 3, capital (server.js lines 432–455): 20 points from
1,000,000, 15 from 100,000, 10 from 10,000, 5 above zero, none for zero
or unparsable capital; skipped entirely on an empty capital string. -/
def stepCapitalSocial (d : DadosCNPJ) (s : ScoreState) : ScoreState :=
  if d.capitalSocial ≠ "" then
    match parseCapital d.capitalSocial with
    | none => { s with fatores := s.fatores ++ ["❌ Capital social não informado"] }
    | some capital =>
        if capital ≥ 1000000 then
          { s with pontuacao := s.pontuacao + 20
                   detalhes := { s.detalhes with capital_social := 20 }
                   fatores := s.fatores ++ ["✅ Capital social elevado (R$ 1M+)"] }
        else if capital ≥ 100000 then
          { s with pontuacao := s.pontuacao + 15
                   detalhes := { s.detalhes with capital_social := 15 }
                   fatores := s.fatores ++ ["✅ Capital social adequado (R$ 100K+)"] }
        else if capital ≥ 10000 then
          { s with pontuacao := s.pontuacao + 10
                   detalhes := { s.detalhes with capital_social := 10 }
                   fatores := s.fatores ++ ["⚠️ Capital social moderado (R$ 10K+)"] }
        else if capital > 0 then
          { s with pontuacao := s.pontuacao + 5
                   detalhes := { s.detalhes with capital_social := 5 }
                   fatores := s.fatores ++ ["⚠️ Capital social baixo"] }
        else
          { s with fatores := s.fatores ++ ["❌ Capital social não informado"] }
  else s

/-- Factor 4, primary activity (server.js lines 457–486): 15 points on a
low-risk keyword, 10 on a medium-risk keyword, 5 otherwise; skipped on
an empty activity descriptor. -/
def stepAtividadePrincipal (d : DadosCNPJ) (s : ScoreState) : ScoreState :=
  if d.atividadePrincipal ≠ "" then
    if atividadesBaixoRisco.any
        (fun palavra => containsStr (toLowerCase d.atividadePrincipal) palavra) then
      { s with pontuacao := s.pontuacao + 15
               detalhes := { s.detalhes with atividade_principal := 15 }
               fatores := s.fatores ++ ["✅ Atividade de baixo risco"] }
    else if atividadesMedioRisco.any
        (fun palavra => containsStr (toLowerCase d.atividadePrincipal) palavra) then
      { s with pontuacao := s.pontuacao + 10
               detalhes := { s.detalhes with atividade_principal := 10 }
               fatores := s.fatores ++ ["⚠️ Atividade de médio risco"] }
    else
      { s with pontuacao := s.pontuacao + 5
               detalhes := { s.detalhes with atividade_principal := 5 }
               fatores := s.fatores ++ ["⚠️ Atividade requer análise específica"] }
  else s

/-- Factor 5, address completeness (server.js lines 488–499): 10 points
with street and postal code, 5 with street only, none otherwise. -/
def stepEndereco (d : DadosCNPJ) (s : ScoreState) : ScoreState :=
  if d.endereco.logradouro ≠ "" ∧ d.endereco.cep ≠ "" then
    { s with pontuacao := s.pontuacao + 10
             detalhes := { s.detalhes with endereco := 10 }
             fatores := s.fatores ++ ["✅ Endereço completo informado"] }
  else if d.endereco.logradouro ≠ "" then
    { s with pontuacao := s.pontuacao + 5
             detalhes := { s.detalhes with endereco := 5 }
             fatores := s.fatores ++ ["⚠️ Endereço parcialmente informado"] }
  else
    { s with fatores := s.fatores ++ ["❌ Endereço incompleto"] }

/-- `gerarRecomendacao(pontuacao, classificacao)` (server.js lines
549–561); the second argument is accepted and ignored, as in the
source. -/
def gerarRecomendacao (pontuacao : ℕ) (_classificacao : String) : String :=
  if pontuacao ≥ 80 then
    "Cliente com excelente perfil. Recomendado para aprovação com condições preferenciais."
  else if pontuacao ≥ 60 then
    "Cliente com bom perfil. Recomendado para aprovação com condições padrão."
  else if pontuacao ≥ 40 then
    "Cliente com perfil regular. Recomenda-se análise adicional e condições restritivas."
  else if pontuacao ≥ 20 then
    "Cliente com perfil de risco. Recomenda-se análise criteriosa e garantias adicionais."
  else
    "Cliente com perfil crítico. Não recomendado para aprovação sem análise presencial detalhada."

/-- `calcularScoreEstimado(dadosCNPJ)` (server.js lines 366–541).
`hoje` is `Date.now()` in ms, `parseDate` the `new Date(string)`
semantics (`none` = invalid date) and `agoraISO` the
`new Date().toISOString()` value at computation time. -/
def calcularScoreEstimado (dadosCNPJ : Option DadosCNPJ) (hoje : ℚ)
    (parseDate : String → Option ℚ) (agoraISO : String) : ScoreResult :=
  match dadosCNPJ with
  | none => scoreIndisponivel
  | some d =>
      if d.success = false then scoreIndisponivel
      else
        let s1 := stepSituacao d { pontuacao := 0, fatores := [], detalhes := ⟨0, 0, 0, 0, 0⟩ }
        let s2 := stepTempoAtividade d hoje parseDate s1
        let s3 := stepCapitalSocial d s2
        let s4 := stepAtividadePrincipal d s3
        let s5 := stepEndereco d s4
        let pontuacao := s5.pontuacao
        let classificacao :=
          if pontuacao ≥ 80 then "Excelente"
          else if pontuacao ≥ 60 then "Bom"
          else if pontuacao ≥ 40 then "Regular"
          else if pontuacao ≥ 20 then "Baixo"
          else "Crítico"
        let cor :=
          if pontuacao ≥ 80 then "#28a745"
          else if pontuacao ≥ 60 then "#17a2b8"
          else if pontuacao ≥ 40 then "#ffc107"
          else if pontuacao ≥ 20 then "#fd7e14"
          else "#dc3545"
        { score := pontuacao, classificacao := classificacao, cor := some cor,
          fatores := s5.fatores, detalhes := s5.detalhes,
          recomendacao := some (gerarRecomendacao pontuacao classificacao),
          calculadoEm := some agoraISO }

/-- The value factor 1 contributes. -/
def situacaoPoints (d : DadosCNPJ) : ℕ :=
  if d.situacao ≠ "" then
    if containsStr (toLowerCase d.situacao) "ativa" then 30
    else if containsStr (toLowerCase d.situacao) "suspensa" then 10
    else 0
  else 0

/-- The value factor 2 contributes. -/
def tempoPoints (d : DadosCNPJ) (hoje : ℚ) (parseDate : String → Option ℚ) : ℕ :=
  if d.dataAbertura ≠ "" then
    match parseDate d.dataAbertura with
    | none => 0
    | some dataAbertura =>
        let anosAtividade : ℚ := (hoje - dataAbertura) / (1000 * 60 * 60 * 24 * 365)
        if anosAtividade ≥ 5 then 25
        else if anosAtividade ≥ 2 then 15
        else if anosAtividade ≥ 1 then 8
        else 0
  else 0

/-- The value factor 3 contributes. -/
def capitalPoints (d : DadosCNPJ) : ℕ :=
  if d.capitalSocial ≠ "" then
    match parseCapital d.capitalSocial with
    | none => 0
    | some capital =>
        if capital ≥ 1000000 then 20
        else if capital ≥ 100000 then 15
        else if capital ≥ 10000 then 10
        else if capital > 0 then 5
        else 0
  else 0

/-- The value factor 4 contributes. -/
def atividadePoints (d : DadosCNPJ) : ℕ :=
  if d.atividadePrincipal ≠ "" then
    if atividadesBaixoRisco.any
        (fun palavra => containsStr (toLowerCase d.atividadePrincipal) palavra) then 15
    else if atividadesMedioRisco.any
        (fun palavra => containsStr (toLowerCase d.atividadePrincipal) palavra) then 10
    else 5
  else 0

/-- The value factor 5 contributes. -/
def enderecoPoints (d : DadosCNPJ) : ℕ :=
  if d.endereco.logradouro ≠ "" ∧ d.endereco.cep ≠ "" then 10
  else if d.endereco.logradouro ≠ "" then 5
  else 0

theorem stepSituacao_spec (d : DadosCNPJ) (s : ScoreState)
    (h : s.detalhes.situacao = 0) :
    (stepSituacao d s).pontuacao = s.pontuacao + situacaoPoints d ∧
    (stepSituacao d s).detalhes = { s.detalhes with situacao := situacaoPoints d } := by
  unfold stepSituacao situacaoPoints
  split_ifs <;> refine ⟨by simp, ?_⟩ <;> first | rfl | rw [← h]

theorem stepTempoAtividade_spec (d : DadosCNPJ) (hoje : ℚ)
    (parseDate : String → Option ℚ) (s : ScoreState)
    (h : s.detalhes.tempo_atividade = 0) :
    (stepTempoAtividade d hoje parseDate s).pontuacao =
      s.pontuacao + tempoPoints d hoje parseDate ∧
    (stepTempoAtividade d hoje parseDate s).detalhes =
      { s.detalhes with tempo_atividade := tempoPoints d hoje parseDate } := by
  unfold stepTempoAtividade tempoPoints
  by_cases h1 : d.dataAbertura = ""
  · simp only [h1, ne_eq, not_true_eq_false, if_false]
    exact ⟨by simp, by rw [← h]⟩
  · simp only [ne_eq, h1, not_false_eq_true, if_true]
    cases hp : parseDate d.dataAbertura with
    | none =>
        refine ⟨by simp, ?_⟩
        dsimp only
        rw [← h]
    | some t =>
        dsimp only
        split_ifs <;> refine ⟨by simp, ?_⟩ <;> first | rfl | rw [← h]

theorem stepCapitalSocial_spec (d : DadosCNPJ) (s : ScoreState)
    (h : s.detalhes.capital_social = 0) :
    (stepCapitalSocial d s).pontuacao = s.pontuacao + capitalPoints d ∧
    (stepCapitalSocial d s).detalhes =
      { s.detalhes with capital_social := capitalPoints d } := by
  unfold stepCapitalSocial capitalPoints
  by_cases h1 : d.capitalSocial = ""
  · simp only [h1, ne_eq, not_true_eq_false, if_false]
    exact ⟨by simp, by rw [← h]⟩
  · simp only [ne_eq, h1, not_false_eq_true, if_true]
    cases hp : parseCapital d.capitalSocial with
    | none =>
        refine ⟨by simp, ?_⟩
        dsimp only
        rw [← h]
    | some c =>
        dsimp only
        split_ifs <;> refine ⟨by simp, ?_⟩ <;> first | rfl | rw [← h]

theorem stepAtividadePrincipal_spec (d : DadosCNPJ) (s : ScoreState)
    (h : s.detalhes.atividade_principal = 0) :
    (stepAtividadePrincipal d s).pontuacao = s.pontuacao + atividadePoints d ∧
    (stepAtividadePrincipal d s).detalhes =
      { s.detalhes with atividade_principal := atividadePoints d } := by
  unfold stepAtividadePrincipal atividadePoints
  split_ifs <;> refine ⟨by simp, ?_⟩ <;> first | rfl | rw [← h]

theorem stepEndereco_spec (d : DadosCNPJ) (s : ScoreState)
    (h : s.detalhes.endereco = 0) :
    (stepEndereco d s).pontuacao = s.pontuacao + enderecoPoints d ∧
    (stepEndereco d s).detalhes = { s.detalhes with endereco := enderecoPoints d } := by
  unfold stepEndereco enderecoPoints
  split_ifs <;> refine ⟨by simp, ?_⟩ <;> first | rfl | rw [← h]

/-- The final accumulator state of a successful score computation. -/
def sFinal (d : DadosCNPJ) (hoje : ℚ) (parseDate : String → Option ℚ) : ScoreState :=
  stepEndereco d (stepAtividadePrincipal d (stepCapitalSocial d
    (stepTempoAtividade d hoje parseDate
      (stepSituacao d { pontuacao := 0, fatores := [], detalhes := ⟨0, 0, 0, 0, 0⟩ }))))

theorem sFinal_spec (d : DadosCNPJ) (hoje : ℚ) (parseDate : String → Option ℚ) :
    (sFinal d hoje parseDate).pontuacao =
      situacaoPoints d + tempoPoints d hoje parseDate + capitalPoints d +
        atividadePoints d + enderecoPoints d ∧
    (sFinal d hoje parseDate).detalhes =
      ⟨situacaoPoints d, tempoPoints d hoje parseDate, capitalPoints d,
        atividadePoints d, enderecoPoints d⟩ := by
  have h1 := stepSituacao_spec d
    { pontuacao := 0, fatores := [], detalhes := ⟨0, 0, 0, 0, 0⟩ } rfl
  have h2 := stepTempoAtividade_spec d hoje parseDate _ (by rw [h1.2])
  have h3 := stepCapitalSocial_spec d _ (by rw [h2.2, h1.2])
  have h4 := stepAtividadePrincipal_spec d _ (by rw [h3.2, h2.2, h1.2])
  have h5 := stepEndereco_spec d _ (by rw [h4.2, h3.2, h2.2, h1.2])
  unfold sFinal
  refine ⟨?_, ?_⟩
  · rw [h5.1, h4.1, h3.1, h2.1, h1.1]
    dsimp only
    omega
  · rw [h5.2, h4.2, h3.2, h2.2, h1.2]

theorem calcular_success_spec (d : DadosCNPJ) (hoje : ℚ)
    (parseDate : String → Option ℚ) (agoraISO : String) (h : d.success = true) :
    (calcularScoreEstimado (some d) hoje parseDate agoraISO).detalhes =
      ⟨situacaoPoints d, tempoPoints d hoje parseDate, capitalPoints d,
        atividadePoints d, enderecoPoints d⟩ ∧
    (calcularScoreEstimado (some d) hoje parseDate agoraISO).score =
      situacaoPoints d + tempoPoints d hoje parseDate + capitalPoints d +
        atividadePoints d + enderecoPoints d ∧
    (calcularScoreEstimado (some d) hoje parseDate agoraISO).cor.isSome = true ∧
    (calcularScoreEstimado (some d) hoje parseDate agoraISO).recomendacao.isSome = true ∧
    (calcularScoreEstimado (some d) hoje parseDate agoraISO).calculadoEm = some agoraISO := by
  have hne : ¬ d.success = false := by simp [h]
  have hsf := sFinal_spec d hoje parseDate
  have heq : calcularScoreEstimado (some d) hoje parseDate agoraISO =
      { score := (sFinal d hoje parseDate).pontuacao
        classificacao :=
          if (sFinal d hoje parseDate).pontuacao ≥ 80 then "Excelente"
          else if (sFinal d hoje parseDate).pontuacao ≥ 60 then "Bom"
          else if (sFinal d hoje parseDate).pontuacao ≥ 40 then "Regular"
          else if (sFinal d hoje parseDate).pontuacao ≥ 20 then "Baixo"
          else "Crítico"
        cor := some
          (if (sFinal d hoje parseDate).pontuacao ≥ 80 then "#28a745"
           else if (sFinal d hoje parseDate).pontuacao ≥ 60 then "#17a2b8"
           else if (sFinal d hoje parseDate).pontuacao ≥ 40 then "#ffc107"
           else if (sFinal d hoje parseDate).pontuacao ≥ 20 then "#fd7e14"
           else "#dc3545")
        fatores := (sFinal d hoje parseDate).fatores
        detalhes := (sFinal d hoje parseDate).detalhes
        recomendacao := some (gerarRecomendacao (sFinal d hoje parseDate).pontuacao
          (if (sFinal d hoje parseDate).pontuacao ≥ 80 then "Excelente"
           else if (sFinal d hoje parseDate).pontuacao ≥ 60 then "Bom"
           else if (sFinal d hoje parseDate).pontuacao ≥ 40 then "Regular"
           else if (sFinal d hoje parseDate).pontuacao ≥ 20 then "Baixo"
           else "Crítico"))
        calculadoEm := some agoraISO } := by
    unfold calcularScoreEstimado sFinal
    dsimp only
    rw [if_neg hne]
  rw [heq]
  exact ⟨hsf.2, by rw [hsf.1], rfl, rfl, rfl⟩

/-- C7: for every input — no profile, a failed profile or any successful
profile — the total score equals the sum of the five breakdown values. -/
theorem c7_score_eq_breakdown_sum (dadosCNPJ : Option DadosCNPJ) (hoje : ℚ)
    (parseDate : String → Option ℚ) (agoraISO : String) :
    (calcularScoreEstimado dadosCNPJ hoje parseDate agoraISO).score =
      detalhesSum (calcularScoreEstimado dadosCNPJ hoje parseDate agoraISO).detalhes := by
  cases dadosCNPJ with
  | none => rfl
  | some d =>
      by_cases h : d.success = true
      · have hs := calcular_success_spec d hoje parseDate agoraISO h
        rw [hs.2.1, hs.1]
        simp [detalhesSum]
      · have hf : d.success = false := by revert h; cases d.success <;> simp
        have hind : calcularScoreEstimado (some d) hoje parseDate agoraISO =
            scoreIndisponivel := by
          unfold calcularScoreEstimado
          dsimp only
          rw [if_pos hf]
        rw [hind]
        rfl

/-- C10: the unavailable-data result (null input or `success = false`)
is exactly score 0, classification `'Indisponível'`, the single factor
message and the all-zero breakdown, with no `cor`, no `recomendacao`
and no `calculadoEm`; every result computed from a successful profile
carries all three. -/
theorem c10_unavailable_shape (hoje : ℚ) (parseDate : String → Option ℚ)
    (agoraISO : String) :
    (calcularScoreEstimado none hoje parseDate agoraISO =
      { score := 0, classificacao := "Indisponível", cor := none,
        fatores := ["Dados do CNPJ não disponíveis"], detalhes := ⟨0, 0, 0, 0, 0⟩,
        recomendacao := none, calculadoEm := none }) ∧
    (∀ d : DadosCNPJ, d.success = false →
      calcularScoreEstimado (some d) hoje parseDate agoraISO =
        { score := 0, classificacao := "Indisponível", cor := none,
          fatores := ["Dados do CNPJ não disponíveis"], detalhes := ⟨0, 0, 0, 0, 0⟩,
          recomendacao := none, calculadoEm := none }) ∧
    (∀ d : DadosCNPJ, d.success = true →
      (calcularScoreEstimado (some d) hoje parseDate agoraISO).cor.isSome = true ∧
      (calcularScoreEstimado (some d) hoje parseDate agoraISO).recomendacao.isSome = true ∧
      (calcularScoreEstimado (some d) hoje parseDate agoraISO).calculadoEm = some agoraISO) := by
  refine ⟨rfl, ?_, ?_⟩
  · intro d hf
    unfold calcularScoreEstimado
    dsimp only
    rw [if_pos hf]
    rfl
  · intro d h
    have hs := calcular_success_spec d hoje parseDate agoraISO h
    exact ⟨hs.2.2.1, hs.2.2.2.1, hs.2.2.2.2⟩

/-- C8 as a proposition about one profile and one parsed value `q`. -/
def C8Statement (d : DadosCNPJ) (hoje : ℚ) (parseDate : String → Option ℚ)
    (agoraISO : String) (q : ℚ) : Prop :=
  (parseCapital d.capitalSocial = some q →
    ((1000000 ≤ q →
        (calcularScoreEstimado (some d) hoje parseDate agoraISO).detalhes.capital_social = 20) ∧
     (100000 ≤ q ∧ q ≤ 999999.99 →
        (calcularScoreEstimado (some d) hoje parseDate agoraISO).detalhes.capital_social = 15) ∧
     (10000 ≤ q ∧ q ≤ 99999.99 →
        (calcularScoreEstimado (some d) hoje parseDate agoraISO).detalhes.capital_social = 10) ∧
     (0 < q ∧ q < 10000 →
        (calcularScoreEstimado (some d) hoje parseDate agoraISO).detalhes.capital_social = 5) ∧
     (q = 0 →
        (calcularScoreEstimado (some d) hoje parseDate agoraISO).detalhes.capital_social = 0))) ∧
  (parseCapital d.capitalSocial = none →
    (calcularScoreEstimado (some d) hoje parseDate agoraISO).detalhes.capital_social = 0)

/-- C8: for every successful profile with a non-empty capital string,
the capital sub-score is 20 from 1,000,000; 15 on [100,000, 999,999.99];
10 on [10,000, 99,999.99]; 5 strictly between 0 and 10,000; 0 for a zero
or unparsable capital — `parseCapital` strips every character that is
neither digit nor comma and takes the first comma as the decimal
separator, as the source does. -/
theorem c8_capital (d : DadosCNPJ) (hoje : ℚ) (parseDate : String → Option ℚ)
    (agoraISO : String) (q : ℚ) (hs : d.success = true) (hc : d.capitalSocial ≠ "") :
    C8Statement d hoje parseDate agoraISO q := by
  have hdet := (calcular_success_spec d hoje parseDate agoraISO hs).1
  have hcp : (calcularScoreEstimado (some d) hoje parseDate agoraISO).detalhes.capital_social
      = capitalPoints d := by rw [hdet]
  unfold C8Statement
  rw [hcp]
  constructor
  · intro hpq
    unfold capitalPoints
    rw [if_pos hc, hpq]
    dsimp only
    refine ⟨?_, ?_, ?_, ?_, ?_⟩
    · intro h1
      rw [if_pos h1]
    · rintro ⟨h1, h2⟩
      have hn1 : ¬ q ≥ 1000000 := by
        intro hcon
        have hlt : (999999.99 : ℚ) < 1000000 := by norm_num
        linarith
      rw [if_neg hn1, if_pos h1]
    · rintro ⟨h1, h2⟩
      have hn1 : ¬ q ≥ 1000000 := by
        intro hcon
        have hlt : (99999.99 : ℚ) < 1000000 := by norm_num
        linarith
      have hn2 : ¬ q ≥ 100000 := by
        intro hcon
        have hlt : (99999.99 : ℚ) < 100000 := by norm_num
        linarith
      rw [if_neg hn1, if_neg hn2, if_pos h1]
    · rintro ⟨h1, h2⟩
      have hn1 : ¬ q ≥ 1000000 := by intro hcon; linarith
      have hn2 : ¬ q ≥ 100000 := by intro hcon; linarith
      have hn3 : ¬ q ≥ 10000 := by intro hcon; linarith
      rw [if_neg hn1, if_neg hn2, if_neg hn3, if_pos h1]
    · intro h0
      subst h0
      rw [if_neg (by norm_num), if_neg (by norm_num), if_neg (by norm_num),
        if_neg (by norm_num)]
  · intro hpn
    unfold capitalPoints
    rw [if_pos hc, hpn]

/-- C8, witness: a profile whose capital string is `"1500000"`. -/
theorem c8_capital_witness :
    C8Statement { success := true, capitalSocial := "1500000" } 0 (fun _ => none) "t"
      1500000 :=
  c8_capital { success := true, capitalSocial := "1500000" } 0 (fun _ => none) "t"
    1500000 rfl (by decide)

/-- C2: the claim (and the repository's own dashboard documentation)
give 15 points for a status containing the suspended keyword, but the
code (server.js lines 400–403) awards 10: on the status `"Suspensa"`
the status sub-score evaluates to 10, not 15. -/
theorem c2_suspensa_eval :
    (calcularScoreEstimado (some { success := true, situacao := "Suspensa" }) 0
      (fun _ => none) "t").detalhes.situacao = 10 := by
  decide

/-- C3: the claim (and the repository's own dashboard documentation)
give the longevity bands 25/20/15/5 at ≥10 / 5–10 / 2–5 / <2 years, but
the code (server.js lines 415–429) uses 25/15/8/0 at ≥5 / 2–5 / 1–2 /
<1: at exactly 7 years of activity the sub-score evaluates to 25 where
the claim requires 20. -/
theorem c3_longevity_eval :
    (calcularScoreEstimado (some { success := true, dataAbertura := "2018-06-01" })
      (7 * 31536000000) (fun _ => some 0) "t").detalhes.tempo_atividade = 25 := by
  have hs := calcular_success_spec { success := true, dataAbertura := "2018-06-01" }
    (7 * 31536000000) (fun _ => some 0) "t" rfl
  rw [hs.1]
  show tempoPoints { success := true, dataAbertura := "2018-06-01" }
    (7 * 31536000000) (fun _ => some 0) = 25
  unfold tempoPoints
  rw [if_pos (by decide)]
  dsimp only
  rw [if_pos (by norm_num)]
